import Mathlib

/-!
Verification of the RPM policy checker core (src/rpm_policy_checker/main.py)
against its natural-language specification.

The checking functions of the Python source are shallowly embedded as total
Lean functions over `String`/`List Char`:

* `check_spec_file` / `checkSpecText` embed `_check_spec_file`;
* `check_rpm_file` embeds `_check_rpm_file`, with the three `subprocess.run`
  invocations abstracted as explicit `QRes` inputs (normal completion with
  captured stdout/stderr/returncode, `FileNotFoundError`, or another
  exception such as `TimeoutExpired` carrying its `str()` message);
* `parseLintLine` embeds the per-line parsing of `_run_rpmlint`;
* `check_package` embeds the dispatcher, with the rpm analyzer and the
  linter passed as opaque parameters (the dispatcher never inspects their
  results) and the filesystem as a function from path to
  `Except errorMessage content`.

Python string operations are modelled on ASCII data: `str.lower`,
`str.capitalize` and the regex classes `\w`, `\s`, `\d` are interpreted over
ASCII (the source only ever matches ASCII keywords, tags and paths).
Python `%`-formatting is applied at translation time: a `"%%"` in a string
that IS `%`-formatted in the source becomes `"%"`, while a `"%%"` in a string
that is never `%`-formatted stays `"%%"` verbatim, exactly as in Python.
-/

namespace RpmPolicy

/-- Whitespace as matched by Python's `str.strip`, `str.isspace` and the
regex class `\s` (ASCII part): space, tab, newline, carriage return,
vertical tab, form feed. -/
def isPySpace (c : Char) : Bool :=
  c = ' ' || c = '\t' || c = '\n' || c = '\r' || c = '\x0b' || c = '\x0c'

/-- Python `str.strip()` (no argument): remove leading and trailing
whitespace. -/
def pyStrip (s : String) : String :=
  String.mk (((s.toList.dropWhile isPySpace).reverse.dropWhile isPySpace).reverse)

/-- Python `str.lower()` restricted to ASCII letters (`Char.toLower` maps
only `A`–`Z`). -/
def pyLower (s : String) : String :=
  String.mk (s.toList.map Char.toLower)

/-- Python `str.startswith(p)`. -/
def strStartsWith (s p : String) : Bool :=
  p.toList.isPrefixOf s.toList

/-- Python `str.endswith(p)`. -/
def strEndsWith (s p : String) : Bool :=
  p.toList.reverse.isPrefixOf s.toList.reverse

/-- Contiguous-sublist test on character lists, used to model Python's
`sub in s` substring operator (true for the empty pattern, as in Python). -/
def sublistB (sub : List Char) : List Char → Bool
  | [] => sub.isEmpty
  | c :: t => sub.isPrefixOf (c :: t) || sublistB sub t

/-- Python `sub in s` for strings. -/
def strContains (s sub : String) : Bool :=
  sublistB sub.toList s.toList

/-- Everything after the first `:` in `s`, i.e. Python `s.split(":", 1)[1]`.
Every use in the source is guarded by a check that `s` contains `:`;
on a colon-free string this returns `""` (where Python would raise). -/
def afterFirstColon (s : String) : String :=
  String.mk ((s.toList.dropWhile (fun c => c ≠ ':')).drop 1)

/-- Python `str.capitalize()` over ASCII: first character uppercased, the
rest lowercased. -/
def pyCapitalize (s : String) : String :=
  match s.toList with
  | [] => ""
  | c :: t => String.mk (c.toUpper :: t.map Char.toLower)

/-- Helper for `pySplitlines`. -/
def splitlinesAux (acc : List Char) : List Char → List String
  | [] => if acc.isEmpty then [] else [String.mk acc.reverse]
  | '\r' :: '\n' :: t => String.mk acc.reverse :: splitlinesAux [] t
  | '\r' :: t => String.mk acc.reverse :: splitlinesAux [] t
  | '\n' :: t => String.mk acc.reverse :: splitlinesAux [] t
  | '\x0b' :: t => String.mk acc.reverse :: splitlinesAux [] t
  | '\x0c' :: t => String.mk acc.reverse :: splitlinesAux [] t
  | c :: t => splitlinesAux (c :: acc) t

/-- Python `str.splitlines()`: split at line boundaries (`\n`, `\r`, `\r\n`,
`\v`, `\f`; the rarer Unicode boundaries are not modelled), with no trailing
empty line for a trailing terminator. -/
def pySplitlines (s : String) : List String :=
  splitlinesAux [] s.toList

/-- Python `str.strip("()")`: remove ALL leading and trailing characters
drawn from the set containing the two parenthesis characters. -/
def stripParens (s : String) : String :=
  let isParen : Char → Bool := fun c => c = '(' || c = ')'
  String.mk (((s.toList.dropWhile isParen).reverse.dropWhile isParen).reverse)

/-- Finding record: the uniform result dictionary built by every checker in
the source. Severity is the single-letter code used by the source
(`"E"`, `"W"`, `"I"`, `"N"`, `"P"`). -/
structure Finding where
  category : String
  severity : String
  package : String
  tag : String
  detail : String
  recommendation : String
  deriving DecidableEq, Repr

/-- Presence flags and captured values accumulated by the header-scan loop
of `_check_spec_file`. -/
structure HeaderState where
  has_name : Bool := false
  has_version : Bool := false
  has_release : Bool := false
  has_summary : Bool := false
  has_license : Bool := false
  has_url : Bool := false
  has_source : Bool := false
  has_description : Bool := false
  has_changelog : Bool := false
  has_buildroot : Bool := false
  has_clean : Bool := false
  license_value : String := ""
  deriving DecidableEq, Repr

/-- Flag updates of one iteration of the header-scan loop (the `elif` chain
of `_check_spec_file`, lines 162–236 of main.py). The findings appended by
the same loop depend only on the line, never on the flags, and the flags
never depend on the findings, so the single Python loop is translated as
this flag-update step plus `headerLineFindings` below, folded over the same
branch structure. `License:` capture is unconditional on each match, so the
last occurrence wins, as in the source. -/
def headerFlagsStep (st : HeaderState) (line : String) : HeaderState :=
  let stripped := pyStrip line
  let lower := pyLower stripped
  if strStartsWith lower "name:" then { st with has_name := true }
  else if strStartsWith lower "version:" then { st with has_version := true }
  else if strStartsWith lower "release:" then { st with has_release := true }
  else if strStartsWith lower "summary:" then { st with has_summary := true }
  else if strStartsWith lower "license:" then
    { st with has_license := true,
              license_value := pyStrip (afterFirstColon stripped) }
  else if strStartsWith lower "url:" then { st with has_url := true }
  else if strStartsWith lower "source" && strContains lower ":" then
    { st with has_source := true }
  else if strStartsWith lower "buildroot:" then { st with has_buildroot := true }
  else if stripped = "%description" then { st with has_description := true }
  else if stripped = "%changelog" then { st with has_changelog := true }
  else if stripped = "%clean" then { st with has_clean := true }
  else st

/-- Findings appended by one iteration of the header-scan loop: naming checks
on each `Name:` line, the dist-tag check on each `Release:` line, and the
Summary checks on each `Summary:` line (main.py lines 165–221). The `detail`
strings have Python `%` formatting applied. -/
def headerLineFindings (line : String) : List Finding :=
  let stripped := pyStrip line
  let lower := pyLower stripped
  if strStartsWith lower "name:" then
    let name_val := pyStrip (afterFirstColon stripped)
    (if name_val ≠ pyLower name_val then
      [{ category := "naming", severity := "W", tag := "uppercase-package-name",
         detail := "Package name '" ++ name_val ++ "' contains uppercase letters.",
         package := name_val,
         recommendation := "Fedora guidelines recommend lowercase package names." }]
     else []) ++
    (if strContains name_val " " then
      [{ category := "naming", severity := "E", tag := "space-in-package-name",
         detail := "Package name contains spaces.",
         package := name_val,
         recommendation := "Remove spaces from the package name." }]
     else [])
  else if strStartsWith lower "version:" then []
  else if strStartsWith lower "release:" then
    let release_val := pyStrip (afterFirstColon stripped)
    if ¬ strContains release_val "%\x7b?dist\x7d" then
      [{ category := "spec-quality", severity := "W", tag := "missing-dist-tag",
         detail := "Release field does not contain %%\x7b?dist\x7d.",
         package := "",
         recommendation := "Add %%\x7b?dist\x7d to the Release tag for proper distribution tagging." }]
    else []
  else if strStartsWith lower "summary:" then
    let summary_val := pyStrip (afterFirstColon stripped)
    (if strEndsWith summary_val "." then
      [{ category := "spec-quality", severity := "W", tag := "summary-ends-with-dot",
         detail := "Summary should not end with a period.",
         package := "",
         recommendation := "Remove the trailing period from the Summary." }]
     else []) ++
    (if summary_val.length > 80 then
      [{ category := "spec-quality", severity := "W", tag := "summary-too-long",
         detail := "Summary exceeds 80 characters.",
         package := "",
         recommendation := "Keep the Summary concise (under 80 characters)." }]
     else [])
  else []

/-- Finding for a missing required field (`missing-name` … `missing-license`,
main.py lines 243–252). -/
def missingFieldFinding (field : String) : Finding :=
  { category := "spec-quality", severity := "E", tag := "missing-" ++ field,
    detail := "Required field '" ++ pyCapitalize field ++ "' is missing from spec file.",
    package := "",
    recommendation := "Add the " ++ pyCapitalize field ++ " tag to the spec file header." }

/-- Required-field loop of `_check_spec_file` (main.py lines 238–252),
unrolled over the literal five-element list of the source. -/
def requiredFindings (st : HeaderState) : List Finding :=
  (if st.has_name then [] else [missingFieldFinding "name"]) ++
  (if st.has_version then [] else [missingFieldFinding "version"]) ++
  (if st.has_release then [] else [missingFieldFinding "release"]) ++
  (if st.has_summary then [] else [missingFieldFinding "summary"]) ++
  (if st.has_license then [] else [missingFieldFinding "license"])

/-- The URL / Source / description / changelog / BuildRoot / `%clean` checks
that follow the required-field loop (main.py lines 254–313), in source
order. The `%%` sequences are verbatim from strings that are never
`%`-formatted in the source. -/
def presenceFindings (st : HeaderState) : List Finding :=
  (if st.has_url then [] else
    [{ category := "spec-quality", severity := "W", tag := "missing-url",
       detail := "URL field is missing.", package := "",
       recommendation := "Add a URL pointing to the project's homepage." }]) ++
  (if st.has_source then [] else
    [{ category := "spec-quality", severity := "W", tag := "missing-source",
       detail := "No Source tag found.", package := "",
       recommendation := "Add a Source0 tag with the upstream tarball URL." }]) ++
  (if st.has_description then [] else
    [{ category := "spec-quality", severity := "E", tag := "missing-description",
       detail := "%%description section is missing.", package := "",
       recommendation := "Add a %%description section with a detailed package description." }]) ++
  (if st.has_changelog then [] else
    [{ category := "changelog", severity := "W", tag := "missing-changelog",
       detail := "%%changelog section is missing.", package := "",
       recommendation := "Add a %%changelog section with dated entries." }]) ++
  (if st.has_buildroot then
    [{ category := "spec-quality", severity := "I", tag := "deprecated-buildroot",
       detail := "BuildRoot tag is deprecated in modern RPM.", package := "",
       recommendation := "Remove the BuildRoot tag; RPM sets it automatically." }]
   else []) ++
  (if st.has_clean then
    [{ category := "spec-quality", severity := "I", tag := "deprecated-clean-section",
       detail := "%%clean section is deprecated in modern RPM.", package := "",
       recommendation := "Remove the %%clean section; rpmbuild handles cleanup automatically." }]
   else [])

/-- SPDX identifier allow-list of the source (main.py lines 317–325). -/
def spdx_identifiers : List String :=
  ["MIT", "Apache-2.0", "GPL-2.0-only", "GPL-2.0-or-later",
   "GPL-3.0-only", "GPL-3.0-or-later", "LGPL-2.1-only",
   "LGPL-2.1-or-later", "LGPL-3.0-only", "LGPL-3.0-or-later",
   "BSD-2-Clause", "BSD-3-Clause", "MPL-2.0", "ISC", "Zlib",
   "Unlicense", "CC0-1.0", "AGPL-3.0-only", "AGPL-3.0-or-later",
   "Artistic-2.0", "BSL-1.0", "CC-BY-4.0", "CC-BY-SA-4.0",
   "EPL-2.0", "EUPL-1.2", "WTFPL", "0BSD"]

/-- Legacy Fedora license identifiers of the source (main.py lines 326–329). -/
def old_fedora_licenses : List String :=
  ["GPLv2", "GPLv2+", "GPLv3", "GPLv3+", "LGPLv2", "LGPLv2+",
   "LGPLv3", "LGPLv3+", "ASL 2.0", "BSD", "MIT"]

/-- Literal keyword alternation of the split regex
`\s+(?:AND|OR|and|or)\s+`: if `l` begins with one of the four exact-case
keywords, return the remainder after it. At any position at most one
keyword can match (their first characters differ), so the alternation is
deterministic. -/
def kwMatch (l : List Char) : Option (List Char) :=
  if ['A', 'N', 'D'].isPrefixOf l then some (l.drop 3)
  else if ['O', 'R'].isPrefixOf l then some (l.drop 2)
  else if ['a', 'n', 'd'].isPrefixOf l then some (l.drop 3)
  else if ['o', 'r'].isPrefixOf l then some (l.drop 2)
  else none

theorem kwMatch_length_lt {l r : List Char} (h : kwMatch l = some r) :
    r.length < l.length := by
  unfold kwMatch at h
  split at h
  · rename_i hp
    cases h
    have := (List.isPrefixOf_iff_prefix.mp hp).length_le
    simp at this ⊢
    omega
  · split at h
    · rename_i hp
      cases h
      have := (List.isPrefixOf_iff_prefix.mp hp).length_le
      simp at this ⊢
      omega
    · split at h
      · rename_i hp
        cases h
        have := (List.isPrefixOf_iff_prefix.mp hp).length_le
        simp at this ⊢
        omega
      · split at h
        · rename_i hp
          cases h
          have := (List.isPrefixOf_iff_prefix.mp hp).length_le
          simp at this ⊢
          omega
        · cases h

/-- One match attempt of the separator regex `\s+(?:AND|OR|and|or)\s+` at
the start of `l`: one or more whitespace characters, one keyword, one or
more whitespace characters; returns the remainder after the whole
(greedy) match. Both `\s+` runs are maximal: the keywords start and end
with letters, so backtracking into either run can never succeed, and the
trailing run is maximal because nothing follows it in the pattern. -/
def sepMatch (l : List Char) : Option (List Char) :=
  let a := l.dropWhile isPySpace
  if a.length = l.length then none
  else
    match kwMatch a with
    | none => none
    | some b =>
      let c := b.dropWhile isPySpace
      if c.length = b.length then none else some c

theorem sepMatch_length_lt {l r : List Char} (h : sepMatch l = some r) :
    r.length < l.length := by
  simp only [sepMatch] at h
  split at h
  · cases h
  · rename_i h1
    split at h
    · cases h
    · rename_i b hb
      split at h
      · cases h
      · cases h
        have hda : (l.dropWhile isPySpace).length ≤ l.length :=
          (List.dropWhile_sublist isPySpace (l := l)).length_le
        have hkb := kwMatch_length_lt hb
        have hdc : (b.dropWhile isPySpace).length ≤ b.length :=
          (List.dropWhile_sublist isPySpace (l := b)).length_le
        omega

/-- Helper for `reSplitLicense`: scan left to right; at each position where
the separator regex matches (Python `re.split` takes the leftmost match),
emit the accumulated part and continue after the match. Only a whitespace
character can start a separator match, so other characters are accumulated
directly. The recursion is structural on an explicit fuel so that the
kernel can evaluate it; every recursive call strictly shortens the
character list (`sepMatch_length_lt`), so any fuel of at least the list's
length never runs out — see `reSplitAux_fuel_congr`. -/
def reSplitAux (acc : List Char) : List Char → Nat → List String
  | l, 0 => [String.mk (acc.reverse ++ l)]
  | [], _ + 1 => [String.mk acc.reverse]
  | c :: t, fuel + 1 =>
    if isPySpace c then
      match sepMatch (c :: t) with
      | some rest => String.mk acc.reverse :: reSplitAux [] rest fuel
      | none => reSplitAux (c :: acc) t fuel
    else reSplitAux (c :: acc) t fuel

theorem reSplitAux_fuel_congr :
    ∀ (f1 : Nat) (acc l : List Char) (f2 : Nat), l.length ≤ f1 → l.length ≤ f2 →
      reSplitAux acc l f1 = reSplitAux acc l f2 := by
  intro f1
  induction f1 with
  | zero =>
    intro acc l f2 h1 h2
    have : l = [] := List.length_eq_zero.mp (Nat.le_zero.mp h1)
    subst this
    cases f2 <;> simp [reSplitAux]
  | succ f ih =>
    intro acc l f2 h1 h2
    cases l with
    | nil => cases f2 <;> simp [reSplitAux]
    | cons c t =>
      cases f2 with
      | zero => exact absurd h2 (by simp)
      | succ f2 =>
        simp only [reSplitAux]
        split
        · rename_i hws
          cases hsep : sepMatch (c :: t) with
          | some rest =>
            have hlt := sepMatch_length_lt hsep
            simp only [List.length_cons] at h1 h2 hlt
            dsimp only
            rw [ih [] rest f2 (by omega) (by omega)]
          | none =>
            simp only [List.length_cons] at h1 h2
            dsimp only
            rw [ih (c :: acc) t f2 (by omega) (by omega)]
        · simp only [List.length_cons] at h1 h2
          rw [ih (c :: acc) t f2 (by omega) (by omega)]

/-- Python `re.split(r'\s+(?:AND|OR|and|or)\s+', s)` (main.py line 331). -/
def reSplitLicense (s : String) : List String :=
  reSplitAux [] s.toList s.toList.length

/-- Finding for a legacy Fedora license identifier (main.py
lines 334–342). -/
def oldLicenseFinding (p : String) : Finding :=
  { category := "licensing", severity := "W", tag := "old-license-identifier",
    detail := "License '" ++ p ++ "' uses old Fedora format, not SPDX.",
    package := "",
    recommendation := "Fedora 40+ requires SPDX license identifiers. Convert to SPDX format." }

/-- Finding for an unrecognized license identifier (main.py
lines 343–351). -/
def unknownLicenseFinding (p : String) : Finding :=
  { category := "licensing", severity := "I", tag := "unknown-license-identifier",
    detail := "License identifier '" ++ p ++ "' is not a recognized SPDX identifier.",
    package := "",
    recommendation := "Check https://spdx.org/licenses/ for valid SPDX identifiers." }

/-- Classification of one license part (main.py lines 332–351): the part is
trimmed, then ALL leading/trailing parenthesis characters are stripped
(`part.strip().strip("()")`), then looked up in the two identifier lists. -/
def classifyPart (part : String) : List Finding :=
  let p := stripParens (pyStrip part)
  if old_fedora_licenses.contains p && ¬ spdx_identifiers.contains p then
    [oldLicenseFinding p]
  else if ¬ spdx_identifiers.contains p && ¬ old_fedora_licenses.contains p then
    [unknownLicenseFinding p]
  else []

/-- The SPDX license block of `_check_spec_file` (main.py lines 315–351):
run only when the captured license value is truthy (non-empty). -/
def licenseFindings (license_value : String) : List Finding :=
  if license_value = "" then []
  else (reSplitLicense license_value).flatMap classifyPart

/-- The four independent hardcoded-path checks of the macro scan for one
line (main.py lines 354–392); `i` is the 1-based line number. The `detail`
strings have `%`-formatting applied (`%d` → the line number, `%%` → `%`);
the `recommendation` strings are never formatted so their `%%` stays. -/
def macroLineFindings (i : Nat) (line : String) : List Finding :=
  let stripped := pyStrip line
  (if strContains stripped "/usr/lib/" && ¬ strContains stripped "%\x7b_libdir\x7d" &&
      ¬ strStartsWith stripped "#" then
    [{ category := "macros", severity := "W", tag := "hardcoded-library-path",
       detail := "Line " ++ toString i ++ ": Hardcoded /usr/lib/ instead of %\x7b_libdir\x7d.",
       package := "",
       recommendation := "Use %%\x7b_libdir\x7d macro instead of hardcoded library path." }]
   else []) ++
  (if strContains stripped "/usr/bin/" && ¬ strContains stripped "%\x7b_bindir\x7d" &&
      ¬ strStartsWith stripped "#" && ¬ strStartsWith stripped "Source" then
    [{ category := "macros", severity := "W", tag := "hardcoded-bindir",
       detail := "Line " ++ toString i ++ ": Hardcoded /usr/bin/ instead of %\x7b_bindir\x7d.",
       package := "",
       recommendation := "Use %%\x7b_bindir\x7d macro instead of hardcoded path." }]
   else []) ++
  (if strContains stripped "/usr/share/" && ¬ strContains stripped "%\x7b_datadir\x7d" &&
      ¬ strStartsWith stripped "#" && ¬ strStartsWith stripped "Source" then
    [{ category := "macros", severity := "I", tag := "hardcoded-datadir",
       detail := "Line " ++ toString i ++ ": Hardcoded /usr/share/ instead of %\x7b_datadir\x7d.",
       package := "",
       recommendation := "Use %%\x7b_datadir\x7d macro for portability." }]
   else []) ++
  (if strContains stripped "/etc/" && ¬ strContains stripped "%\x7b_sysconfdir\x7d" &&
      ¬ strStartsWith stripped "#" then
    [{ category := "macros", severity := "I", tag := "hardcoded-sysconfdir",
       detail := "Line " ++ toString i ++ ": Hardcoded /etc/ instead of %\x7b_sysconfdir\x7d.",
       package := "",
       recommendation := "Use %%\x7b_sysconfdir\x7d macro for portability." }]
   else [])

/-- Macro scan over all lines with 1-based numbering
(`for i, line in enumerate(lines, 1)`). -/
def macroScanAux (i : Nat) : List String → List Finding
  | [] => []
  | line :: rest => macroLineFindings i line ++ macroScanAux (i + 1) rest

/-- The six scriptlet section markers of the source (main.py line 398). -/
def scriptletMarkers : List String :=
  ["%pre", "%post", "%preun", "%postun", "%pretrans", "%posttrans"]

/-- Finding for a dangerous `rm -rf` inside a scriptlet (main.py
lines 404–412). -/
def dangerousRmFinding (i : Nat) : Finding :=
  { category := "scriptlets", severity := "E", tag := "dangerous-rm-in-scriptlet",
    detail := "Line " ++ toString i ++ ": Dangerous rm -rf in scriptlet.",
    package := "",
    recommendation := "Avoid destructive rm commands in scriptlets." }

/-- Finding for an `exit` inside a scriptlet (main.py lines 413–421). -/
def exitFinding (i : Nat) : Finding :=
  { category := "scriptlets", severity := "W", tag := "exit-in-scriptlet",
    detail := "Line " ++ toString i ++ ": 'exit' in scriptlet may cause transaction failure.",
    package := "",
    recommendation := "Use 'exit 0' or remove exit calls; scriptlet failures can block RPM transactions." }

/-- Scriptlet safety scan (main.py lines 394–421): a state machine over
stripped lines. A marker line sets the flag and is skipped (`continue`); a
line starting with `%` but not with the two characters `%` `\x7b` clears
the flag before the content checks; while the flag is set, a line
containing `rm -rf /` or `rm -rf $RPM_BUILD_ROOT` emits one Error and a
line starting with `exit` emits one Warning. -/
def scriptletScanAux (inScriptlet : Bool) (i : Nat) : List String → List Finding
  | [] => []
  | line :: rest =>
    let stripped := pyStrip line
    if scriptletMarkers.contains stripped then
      scriptletScanAux true (i + 1) rest
    else
      let inS : Bool :=
        if strStartsWith stripped "%" && ¬ strStartsWith stripped "%\x7b" then false
        else inScriptlet
      (if inS then
        (if strContains stripped "rm -rf /" ||
            strContains stripped "rm -rf $RPM_BUILD_ROOT" then
          [dangerousRmFinding i]
         else []) ++
        (if strStartsWith stripped "exit" then [exitFinding i] else [])
       else []) ++ scriptletScanAux inS (i + 1) rest

/-- Tokens of the restricted regular-expression shapes used by the source:
a literal character, a single-character class, or a Kleene star of a class.
`X+` is encoded as `cls X, star X` and `X\x7b4\x7d` as four `cls X`. -/
inductive RTok where
  | lit (c : Char)
  | cls (p : Char → Bool)
  | star (p : Char → Bool)

/-- Match-existence semantics for a token sequence against a prefix of `l`
(the suffix is unconstrained, as with Python `re.match`). Whether any
decomposition matches is independent of greedy/lazy operator variants, so
this decides exactly the success of Python's backtracking match. The
recursion is structural on a fuel; every call strictly decreases
`ts.length + l.length`, so the fuel `ts.length + l.length` supplied by
`toksMatch` never runs out (at fuel 0 one of the base cases applies). -/
def toksMatchF : Nat → List RTok → List Char → Bool
  | _, [], _ => true
  | 0, _ :: _, _ => false
  | fuel + 1, .lit c :: ts, l =>
    match l with
    | [] => false
    | x :: t => x = c && toksMatchF fuel ts t
  | fuel + 1, .cls p :: ts, l =>
    match l with
    | [] => false
    | x :: t => p x && toksMatchF fuel ts t
  | fuel + 1, .star p :: ts, l =>
    toksMatchF fuel ts l ||
      (match l with
       | [] => false
       | x :: t => p x && toksMatchF fuel (.star p :: ts) t)

/-- Anchored match of a token sequence, with sufficient fuel. -/
def toksMatch (ts : List RTok) (l : List Char) : Bool :=
  toksMatchF (ts.length + l.length) ts l

/-- Character class `\w` of Python regexes, ASCII part: letters, digits,
underscore. -/
def isWordChar (c : Char) : Bool :=
  c.isAlphanum || c = '_'

/-- Character class `.` of Python regexes: any character except newline. -/
def isDotChar (c : Char) : Bool :=
  c ≠ '\n'

/-- The changelog-entry pattern of the source,
`^\*\s+\w+\s+\w+\s+\d+\s+\d\x7b4\x7d\s+.+\s+<.+@.+>` (main.py line 432),
as a token sequence. -/
def changelogToks : List RTok :=
  [.lit '*', .cls isPySpace, .star isPySpace,
   .cls isWordChar, .star isWordChar, .cls isPySpace, .star isPySpace,
   .cls isWordChar, .star isWordChar, .cls isPySpace, .star isPySpace,
   .cls Char.isDigit, .star Char.isDigit, .cls isPySpace, .star isPySpace,
   .cls Char.isDigit, .cls Char.isDigit, .cls Char.isDigit, .cls Char.isDigit,
   .cls isPySpace, .star isPySpace,
   .cls isDotChar, .star isDotChar, .cls isPySpace, .star isPySpace,
   .lit '<', .cls isDotChar, .star isDotChar, .lit '@',
   .cls isDotChar, .star isDotChar, .lit '>']

/-- Finding for a malformed changelog entry (main.py lines 434–441). -/
def malformedChangelogFinding (i : Nat) : Finding :=
  { category := "changelog", severity := "W", tag := "malformed-changelog-entry",
    detail := "Line " ++ toString i ++ ": Changelog entry does not follow standard format.",
    package := "",
    recommendation := "Use format: * Day Mon DD YYYY Name <email> - version-release" }

/-- Changelog format scan (main.py lines 423–441): the flag becomes true on
an exact stripped `%changelog` line (which is skipped) and never becomes
false again; afterwards every RAW line starting with `*` that fails the
entry pattern emits one Warning. -/
def changelogScanAux (inChangelog : Bool) (i : Nat) : List String → List Finding
  | [] => []
  | line :: rest =>
    if pyStrip line = "%changelog" then
      changelogScanAux true (i + 1) rest
    else
      (if inChangelog && strStartsWith line "*" &&
          ¬ toksMatch changelogToks line.toList then
        [malformedChangelogFinding i]
       else []) ++ changelogScanAux inChangelog (i + 1) rest

/-- Analysis of decoded spec-file text: everything `_check_spec_file` does
after a successful read (main.py lines 149–443), with the passes
concatenated in source order. -/
def checkSpecText (content : String) : List Finding :=
  let lines := pySplitlines content
  let st := lines.foldl headerFlagsStep {}
  lines.flatMap headerLineFindings ++
  requiredFindings st ++
  presenceFindings st ++
  licenseFindings st.license_value ++
  macroScanAux 1 lines ++
  scriptletScanAux false 1 lines ++
  changelogScanAux false 1 lines

/-- Finding for a failed spec-file read (main.py lines 138–147); `e` is the
exception text. -/
def specReadErrorFinding (e : String) : Finding :=
  { category := "general", severity := "E", tag := "spec-read-error",
    detail := e, package := "", recommendation := "" }

/-- Embedding of `_check_spec_file` (main.py lines 131–443). The filesystem
is a function from path to `Except errorText content`: a read or decode
failure produces the single `spec-read-error` Finding and analysis stops;
otherwise the decoded text is analyzed by `checkSpecText`. -/
def check_spec_file (fs : String → Except String String) (path : String) :
    List Finding :=
  match fs path with
  | .error e => [specReadErrorFinding e]
  | .ok content => checkSpecText content

/-- Outcome of one `subprocess.run` invocation of the `rpm` query tool:
normal completion with captured stdout, stderr and return code;
`FileNotFoundError` (tool not installed); or any other exception — e.g.
`subprocess.TimeoutExpired` on exceeding the 30-second budget — carrying
its `str()` text. -/
inductive QRes where
  | ok (stdout stderr : String) (returncode : Int)
  | raisesFnf
  | raisesErr (msg : String)
  deriving DecidableEq, Repr

/-- Exceptions distinguished by the `except` clauses of `_check_rpm_file`. -/
inductive RpmExc where
  | fnf
  | other (msg : String)
  deriving DecidableEq, Repr

/-- Evaluate a query: either its captured result or the exception it
raises. -/
def qresRun : QRes → Except RpmExc (String × String × Int)
  | .ok out err rc => .ok (out, err, rc)
  | .raisesFnf => .error .fnf
  | .raisesErr m => .error (.other m)

/-- The two `except` handlers of `_check_rpm_file` (main.py lines 530–547):
they append one Error Finding to the results accumulated so far and
return. -/
def rpmExcFindings (acc : List Finding) : RpmExc → List Finding
  | .fnf => acc ++
      [{ category := "general", severity := "E", tag := "rpm-not-installed",
         detail := "rpm command not found.", package := "",
         recommendation := "Install the rpm package to analyze RPM files." }]
  | .other m => acc ++
      [{ category := "general", severity := "E", tag := "rpm-error",
         detail := m, package := "", recommendation := "" }]

/-- Finding for a first query that completed with non-zero exit (main.py
lines 455–464); the detail is `r.stderr.strip() or default` — Python `or`
falls back to the default exactly when the stripped stderr is empty. -/
def rpmQueryFailedFinding (stderr : String) : Finding :=
  { category := "general", severity := "E", tag := "rpm-query-failed",
    detail := if pyStrip stderr = "" then "Failed to query RPM package."
              else pyStrip stderr,
    package := "",
    recommendation := "Ensure the file is a valid RPM package." }

/-- URL check over the info text (main.py lines 467–479): each line
starting with `URL` whose value after the first colon is empty (or the
whole line when it has no colon) or is the literal `(none)` emits one
Warning. -/
def infoLineFindings (line : String) : List Finding :=
  if strStartsWith line "URL" then
    let url_val := if strContains line ":" then pyStrip (afterFirstColon line)
                   else ""
    if url_val = "" || url_val = "(none)" then
      [{ category := "spec-quality", severity := "W", tag := "missing-url-in-rpm",
         detail := "RPM package has no URL set.", package := "",
         recommendation := "Add a URL tag to the spec file." }]
    else []
  else []

/-- Finding for a file under `/usr/local/` (main.py lines 489–497). -/
def usrLocalFinding (fp : String) : Finding :=
  { category := "file-placement", severity := "E", tag := "file-in-usr-local",
    detail := "File installed in /usr/local/: " ++ fp, package := "",
    recommendation := "RPM packages must not install files under /usr/local/." }

/-- Finding for a file under `/tmp/` or `/var/tmp/` (main.py
lines 500–508). -/
def tmpFinding (fp : String) : Finding :=
  { category := "file-placement", severity := "E", tag := "file-in-tmp",
    detail := "File installed in temporary directory: " ++ fp, package := "",
    recommendation := "Do not install files under /tmp/ or /var/tmp/." }

/-- Loop body of the file-list check for one path (main.py lines 488–508):
the `/usr/local/` check runs first; then the `.build-id` test `continue`s,
skipping only the `/tmp/`–`/var/tmp/` check that follows it. -/
def fileLineFindings (fp : String) : List Finding :=
  let a := if strStartsWith fp "/usr/local/" then [usrLocalFinding fp] else []
  if fp = "/usr/lib/.build-id" || strContains fp "/.build-id/" then a
  else a ++
    (if strStartsWith fp "/tmp/" || strStartsWith fp "/var/tmp/" then
      [tmpFinding fp]
     else [])

/-- File-list check over all listed paths. -/
def fileListFindings (files : List String) : List Finding :=
  files.flatMap fileLineFindings

/-- One dependency line of the dependency check (main.py lines 516–528). -/
def depLineFindings (depLine : String) : List Finding :=
  let dep := pyStrip depLine
  if strStartsWith dep "/" && ¬ strStartsWith dep "/usr/" &&
     ¬ (dep = "/bin/sh" || dep = "/bin/bash" || dep = "/sbin/ldconfig") then
    [{ category := "dependencies", severity := "I", tag := "file-dependency",
       detail := "File-based dependency: " ++ dep, package := "",
       recommendation := "Consider using package-based dependencies instead of file paths where possible." }]
  else []

/-- Dependency check over all dependency lines. -/
def depListFindings (deps : List String) : List Finding :=
  deps.flatMap depLineFindings

/-- Embedding of `_check_rpm_file` (main.py lines 446–549) over the
outcomes of its three queries (`rpm -qpi`, `rpm -qpl`, `rpm -qpR`). The
whole body runs inside one `try`: an exception raised by ANY query jumps to
the handlers, which append one Error Finding to the results accumulated so
far and return; a non-zero exit of the FIRST query short-circuits with the
single `rpm-query-failed` Finding; a non-zero exit of the second or third
query merely skips that check. -/
def check_rpm_file (q1 q2 q3 : QRes) : List Finding :=
  match qresRun q1 with
  | .error e => rpmExcFindings [] e
  | .ok (out, errtxt, rc) =>
    if rc ≠ 0 then [rpmQueryFailedFinding errtxt]
    else
      let res1 := (pySplitlines out).flatMap infoLineFindings
      match qresRun q2 with
      | .error e => rpmExcFindings res1 e
      | .ok (out2, _, rc2) =>
        let res2 := res1 ++
          (if rc2 = 0 then fileListFindings (pySplitlines out2) else [])
        match qresRun q3 with
        | .error e => rpmExcFindings res2 e
        | .ok (out3, _, rc3) =>
          res2 ++ (if rc3 = 0 then depListFindings (pySplitlines out3) else [])

/-- Tail of the primary rpmlint pattern `^(.+?):\s*(\w):\s*(\S+)\s*(.*)`
after a candidate group-1 colon: `\s*` (maximal, since `\w` cannot match
whitespace), one word character, a colon, `\s*` (maximal, since `\S` cannot
match whitespace), a non-empty maximal run of non-whitespace (group 3),
`\s*` (maximal), and group 4 is the rest of the line (`.` stops at a
newline). Returns (severity char, tag, detail) on success. -/
def primaryTail (l : List Char) : Option (Char × String × String) :=
  match l.dropWhile isPySpace with
  | [] => none
  | c :: rest1 =>
    if isWordChar c then
      match rest1 with
      | ':' :: rest2 =>
        let l2 := rest2.dropWhile isPySpace
        let tagRun := l2.takeWhile (fun x => ¬ isPySpace x)
        if tagRun.isEmpty then none
        else
          let l3 := (l2.drop tagRun.length).dropWhile isPySpace
          some (c, String.mk tagRun, String.mk (l3.takeWhile (· ≠ '\n')))
      | _ => none
    else none

/-- Scan for the primary rpmlint pattern: the lazy `(.+?)` makes Python try
candidate colons left to right, taking the first at which the pattern tail
succeeds; group 1 must be non-empty and, being matched by `.`, cannot span
a newline. Returns (package, severity char, tag, detail). -/
def primaryScan (acc : List Char) : List Char → Option (String × Char × String × String)
  | [] => none
  | c :: t =>
    if c = '\n' then none
    else if c = ':' && ¬ acc.isEmpty then
      match primaryTail t with
      | some (sev, tag, det) => some (String.mk acc.reverse, sev, tag, det)
      | none => primaryScan (c :: acc) t
    else primaryScan (c :: acc) t

/-- Python `re.match(r'^(.+?):\s*(\w):\s*(\S+)\s*(.*)', line)` (main.py
line 88), returning the four groups on success. -/
def primaryMatch (line : String) : Option (String × Char × String × String) :=
  primaryScan [] line.toList

/-- Python `re.match(r'^(\S+):\s*(.*)', line)` (main.py line 100): the
greedy `\S+` followed by a colon captures up to the LAST colon inside the
leading maximal non-whitespace run (the character after the run is
whitespace or end of line, never a colon), then `\s*` is maximal and `(.*)`
takes the rest of the line. -/
def fallbackMatch (line : String) : Option (String × String) :=
  let l := line.toList
  let run := l.takeWhile (fun c => ¬ isPySpace c)
  let colonIdxs := (List.range run.length).filter
    (fun j => 1 ≤ j && run.getD j ' ' = ':')
  match colonIdxs.getLast? with
  | none => none
  | some j =>
    let rest := (l.drop (j + 1)).dropWhile isPySpace
    some (String.mk (run.take j), String.mk (rest.takeWhile (· ≠ '\n')))

/-- The noise-prefix guard of `_run_rpmlint` (main.py line 98): the
fallback pattern is only attempted on a line whose stripped form is
non-empty and which does not start with `---`, a space, or `rpmlint:`. -/
def fallbackEligible (line : String) : Bool :=
  pyStrip line ≠ "" && ¬ strStartsWith line "---" &&
  ¬ strStartsWith line " " && ¬ strStartsWith line "rpmlint:"

/-- Per-line parse of rpmlint output (main.py lines 86–109): primary
pattern first; on failure, the fallback pattern for eligible lines, with a
default severity of `W` and an empty package; anything else yields no
Finding. -/
def parseLintLine (line : String) : Option Finding :=
  match primaryMatch line with
  | some (g1, sev, tag, det) =>
    some { category := "rpmlint", severity := String.mk [sev],
           package := pyStrip g1, tag := tag, detail := det,
           recommendation := "" }
  | none =>
    if fallbackEligible line then
      match fallbackMatch line with
      | some (tag, det) =>
        some { category := "rpmlint", severity := "W", package := "",
               tag := tag, detail := det, recommendation := "" }
      | none => none
    else none

/-- The parsing loop of `_run_rpmlint` over the combined output lines. -/
def parseLintOutput (lines : List String) : List Finding :=
  lines.flatMap (fun l => (parseLintLine l).toList)

/-- The `unknown-file-type` Finding of the dispatcher (main.py
lines 572–588; both the no-spec-marker branch and the read-failure branch
build the identical record). -/
def unknownFileTypeFinding : Finding :=
  { category := "general", severity := "E", tag := "unknown-file-type",
    detail := "File is not a .rpm or .spec file.", package := "",
    recommendation := "Open a .rpm package or .spec file." }

/-- Python `f.readline()` on the opened file: the first line of the
content, including its terminating newline. -/
def readline1 (content : String) : String :=
  let l := content.toList
  String.mk (l.takeWhile (· ≠ '\n') ++ (l.dropWhile (· ≠ '\n')).take 1)

/-- Embedding of the dispatcher `check_package` (main.py lines 552–590).
The filesystem is the same `fs` consumed by `check_spec_file`; the binary
analyzer and the linter are passed as opaque functions because the
dispatcher only concatenates their results: a `.spec` path runs the spec
checker then (if requested) the linter; a `.rpm` path runs the rpm checker
then (if requested) the linter; any other path peeks at its first line —
if it contains `Name:` or a `%` character only the spec checker runs,
otherwise, or when the peek read raises, the single `unknown-file-type`
Finding is produced. -/
def check_package (fs : String → Except String String)
    (rpmCheck lint : String → List Finding)
    (path : String) (run_rpmlint : Bool) : List Finding :=
  if strEndsWith path ".spec" then
    check_spec_file fs path ++ (if run_rpmlint then lint path else [])
  else if strEndsWith path ".rpm" then
    rpmCheck path ++ (if run_rpmlint then lint path else [])
  else
    match fs path with
    | .error _ => [unknownFileTypeFinding]
    | .ok content =>
      let first_line := readline1 content
      if strContains first_line "Name:" || strContains first_line "%" then
        check_spec_file fs path
      else [unknownFileTypeFinding]

/-! Claim-side observations and claim-described reference definitions. -/

/-- Number of Findings carrying a given tag. -/
def countTag (fs : List Finding) (t : String) : Nat :=
  fs.countP (fun f => f.tag == t)

/-- Claim-side observation: the line is a `Release:` header line (after
stripping, case-insensitively) whose value lacks the `%\x7b?dist\x7d`
substring. -/
def releaseLacksDist (line : String) : Bool :=
  let stripped := pyStrip line
  strStartsWith (pyLower stripped) "release:" &&
  ¬ strContains (pyStrip (afterFirstColon stripped)) "%\x7b?dist\x7d"

/-- Modelled from the claim's words for C3: CASE-INSENSITIVE keyword
alternation — any capitalization of `and` or `or`. -/
def kwMatchCI (l : List Char) : Option (List Char) :=
  if (l.take 3).map Char.toLower = ['a', 'n', 'd'] then some (l.drop 3)
  else if (l.take 2).map Char.toLower = ['o', 'r'] then some (l.drop 2)
  else none

theorem kwMatchCI_length_lt {l r : List Char} (h : kwMatchCI l = some r) :
    r.length < l.length := by
  unfold kwMatchCI at h
  split at h
  · rename_i hp
    cases h
    have h3 : (l.take 3).length = 3 := by
      have := congrArg List.length hp
      simpa using this
    simp at h3 ⊢
    omega
  · split at h
    · rename_i hp
      cases h
      have h2 : (l.take 2).length = 2 := by
        have := congrArg List.length hp
        simpa using this
      simp at h2 ⊢
      omega
    · cases h

/-- Modelled from the claim's words for C3: a separator is whitespace, a
case-insensitive keyword, whitespace. -/
def sepMatchCI (l : List Char) : Option (List Char) :=
  let a := l.dropWhile isPySpace
  if a.length = l.length then none
  else
    match kwMatchCI a with
    | none => none
    | some b =>
      let c := b.dropWhile isPySpace
      if c.length = b.length then none else some c

theorem sepMatchCI_length_lt {l r : List Char} (h : sepMatchCI l = some r) :
    r.length < l.length := by
  simp only [sepMatchCI] at h
  split at h
  · cases h
  · rename_i h1
    split at h
    · cases h
    · rename_i b hb
      split at h
      · cases h
      · cases h
        have hda : (l.dropWhile isPySpace).length ≤ l.length :=
          (List.dropWhile_sublist isPySpace (l := l)).length_le
        have hkb := kwMatchCI_length_lt hb
        have hdc : (b.dropWhile isPySpace).length ≤ b.length :=
          (List.dropWhile_sublist isPySpace (l := b)).length_le
        omega

/-- Modelled from the claim's words for C3: left-to-right scan splitting at
each case-insensitive separator occurrence (fuel-structural like
`reSplitAux`; `sepMatchCI_length_lt` makes fuel equal to the list length
sufficient). -/
def reSplitAuxCI (acc : List Char) : List Char → Nat → List String
  | l, 0 => [String.mk (acc.reverse ++ l)]
  | [], _ + 1 => [String.mk acc.reverse]
  | c :: t, fuel + 1 =>
    if isPySpace c then
      match sepMatchCI (c :: t) with
      | some rest => String.mk acc.reverse :: reSplitAuxCI [] rest fuel
      | none => reSplitAuxCI (c :: acc) t fuel
    else reSplitAuxCI (c :: acc) t fuel

/-- Modelled from the claim's words for C3: case-insensitive split of the
license expression on whitespace-surrounded AND/OR. -/
def reSplitLicenseCI (s : String) : List String :=
  reSplitAuxCI [] s.toList s.toList.length

/-- Modelled from the claim's words for C3: strip EXACTLY ONE layer of
enclosing parentheses — one leading `(` and one trailing `)` removed when
both are present. -/
def stripOneParenLayer (s : String) : String :=
  let l := s.toList
  if l.head? = some '(' ∧ l.getLast? = some ')' then
    String.mk (l.drop 1).dropLast
  else s

/-- Modelled from the claim's words for C3: classification of one part
after trimming and one-layer paren stripping, against the same identifier
sets as the source. -/
def classifyPartSpec (part : String) : List Finding :=
  let p := stripOneParenLayer (pyStrip part)
  if old_fedora_licenses.contains p && ¬ spdx_identifiers.contains p then
    [oldLicenseFinding p]
  else if ¬ spdx_identifiers.contains p && ¬ old_fedora_licenses.contains p then
    [unknownLicenseFinding p]
  else []

/-- Modelled from the claim's words for C3: the license validation as the
claim describes it (case-insensitive split, one-layer paren strip), run —
like the source's — only for a non-empty expression. -/
def licenseFindingsSpec (license_value : String) : List Finding :=
  if license_value = "" then []
  else (reSplitLicenseCI license_value).flatMap classifyPartSpec

/-- Claim-side formalization for C6 of the scriptlet state machine: the
1-based numbers of the lines that the machine considers inside a
recognized scriptlet section (marker lines themselves excluded) and whose
stripped text contains `rm -rf /` or `rm -rf $RPM_BUILD_ROOT`. The machine
enters on a stripped line equal to one of the six markers and exits on a
line starting with `%` but not `%\x7b`. -/
def dangerousLinesAux (inScriptlet : Bool) (i : Nat) : List String → List Nat
  | [] => []
  | line :: rest =>
    let stripped := pyStrip line
    if scriptletMarkers.contains stripped then
      dangerousLinesAux true (i + 1) rest
    else
      let inS : Bool :=
        if strStartsWith stripped "%" && ¬ strStartsWith stripped "%\x7b" then false
        else inScriptlet
      (if inS && (strContains stripped "rm -rf /" ||
                  strContains stripped "rm -rf $RPM_BUILD_ROOT") then [i]
       else []) ++ dangerousLinesAux inS (i + 1) rest

/-! Helper lemmas. -/

theorem head_of_startsWith {s p : String} {c : Char} {cs : List Char}
    (hp : p.toList = c :: cs) (h : strStartsWith s p = true) :
    s.toList.head? = some c := by
  unfold strStartsWith at h
  rw [hp] at h
  obtain ⟨t, ht⟩ := List.isPrefixOf_iff_prefix.mp h
  rw [← ht]
  rfl

theorem not_release_of_name {s : String} (h : strStartsWith s "name:" = true) :
    strStartsWith s "release:" = false := by
  by_contra hc
  rw [Bool.not_eq_false] at hc
  have h1 := @head_of_startsWith s "name:" 'n'
    ['a', 'm', 'e', ':'] (by decide) h
  have h2 := @head_of_startsWith s "release:" 'r'
    ['e', 'l', 'e', 'a', 's', 'e', ':'] (by decide) hc
  rw [h1] at h2
  exact absurd h2 (by decide)

theorem not_release_of_version {s : String}
    (h : strStartsWith s "version:" = true) :
    strStartsWith s "release:" = false := by
  by_contra hc
  rw [Bool.not_eq_false] at hc
  have h1 := @head_of_startsWith s "version:" 'v'
    ['e', 'r', 's', 'i', 'o', 'n', ':'] (by decide) h
  have h2 := @head_of_startsWith s "release:" 'r'
    ['e', 'l', 'e', 'a', 's', 'e', ':'] (by decide) hc
  rw [h1] at h2
  exact absurd h2 (by decide)

theorem countP_flatMap_zero {α : Type} (p : Finding → Bool)
    (g : α → List Finding) (l : List α)
    (h : ∀ a, (g a).countP p = 0) : (l.flatMap g).countP p = 0 := by
  induction l with
  | nil => rfl
  | cons a t ih => simp [List.countP_append, h a, ih]

theorem countP_headerLine_dist (line : String) :
    (headerLineFindings line).countP (fun f => f.tag == "missing-dist-tag") =
      if releaseLacksDist line then 1 else 0 := by
  simp only [headerLineFindings, releaseLacksDist]
  by_cases h1 : strStartsWith (pyLower (pyStrip line)) "name:" = true
  · simp only [h1, if_true, not_release_of_name h1, Bool.false_and]
    split_ifs <;> first | rfl | (exfalso; assumption)
  · simp only [h1, if_false]
    by_cases h2 : strStartsWith (pyLower (pyStrip line)) "version:" = true
    · simp only [h2, if_true, not_release_of_version h2, Bool.false_and]
      rfl
    · simp only [h2, if_false]
      by_cases h3 : strStartsWith (pyLower (pyStrip line)) "release:" = true
      · simp only [h3, if_true, Bool.true_and]
        cases hc : strContains (pyStrip (afterFirstColon (pyStrip line)))
            "%\x7b?dist\x7d" <;> rfl
      · simp only [h3, if_false, Bool.false_and]
        split_ifs <;> first | rfl | (exfalso; assumption)

theorem countP_headerFlat_dist (lines : List String) :
    (lines.flatMap headerLineFindings).countP
        (fun f => f.tag == "missing-dist-tag") =
      lines.countP releaseLacksDist := by
  induction lines with
  | nil => rfl
  | cons l t ih =>
    simp only [List.flatMap_cons, List.countP_append, List.countP_cons,
      countP_headerLine_dist, ih]
    split_ifs <;> omega

theorem countP_required_dist (st : HeaderState) :
    (requiredFindings st).countP (fun f => f.tag == "missing-dist-tag") = 0 := by
  obtain ⟨n, v, r, s, l, u, so, d, ch, b, cl, lv⟩ := st
  cases n <;> cases v <;> cases r <;> cases s <;> cases l <;> rfl

theorem countP_presence_dist (st : HeaderState) :
    (presenceFindings st).countP (fun f => f.tag == "missing-dist-tag") = 0 := by
  obtain ⟨n, v, r, s, l, u, so, d, ch, b, cl, lv⟩ := st
  cases u <;> cases so <;> cases d <;> cases ch <;> cases b <;> cases cl <;> rfl

theorem countP_classify_zero (p : Finding → Bool)
    (h1 : ∀ s, p (oldLicenseFinding s) = false)
    (h2 : ∀ s, p (unknownLicenseFinding s) = false) (part : String) :
    (classifyPart part).countP p = 0 := by
  simp only [classifyPart]
  split_ifs <;> simp [List.countP_cons, h1, h2]

theorem countP_license_zero (p : Finding → Bool)
    (h1 : ∀ s, p (oldLicenseFinding s) = false)
    (h2 : ∀ s, p (unknownLicenseFinding s) = false) (v : String) :
    (licenseFindings v).countP p = 0 := by
  simp only [licenseFindings]
  split_ifs with h
  · rfl
  · exact countP_flatMap_zero _ _ _ (countP_classify_zero p h1 h2)

theorem countP_macroScan_zero (p : Finding → Bool)
    (hp : ∀ i line, (macroLineFindings i line).countP p = 0) (lines : List String) :
    ∀ i, (macroScanAux i lines).countP p = 0 := by
  induction lines with
  | nil => intro i; rfl
  | cons l t ih =>
    intro i
    simp only [macroScanAux, List.countP_append, hp, ih]

theorem countP_scriptlet_zero (p : Finding → Bool)
    (hp1 : ∀ i, p (dangerousRmFinding i) = false)
    (hp2 : ∀ i, p (exitFinding i) = false) (lines : List String) :
    ∀ inS i, (scriptletScanAux inS i lines).countP p = 0 := by
  induction lines with
  | nil => intro inS i; rfl
  | cons l t ih =>
    intro inS i
    simp only [scriptletScanAux]
    split
    · exact ih true (i + 1)
    · rw [List.countP_append, ih]
      split_ifs <;> simp [List.countP_append, List.countP_cons, hp1, hp2]

theorem countP_changelog_zero (p : Finding → Bool)
    (hp : ∀ i, p (malformedChangelogFinding i) = false) (lines : List String) :
    ∀ inCh i, (changelogScanAux inCh i lines).countP p = 0 := by
  induction lines with
  | nil => intro inCh i; rfl
  | cons l t ih =>
    intro inCh i
    simp only [changelogScanAux]
    split
    · exact ih true (i + 1)
    · rw [List.countP_append, ih]
      split_ifs <;> simp [List.countP_cons, hp]

theorem countP_license_dist (v : String) :
    (licenseFindings v).countP (fun f => f.tag == "missing-dist-tag") = 0 :=
  countP_license_zero _ (fun _ => rfl) (fun _ => rfl) v

theorem countP_macroLine_dist (i : Nat) (line : String) :
    (macroLineFindings i line).countP (fun f => f.tag == "missing-dist-tag") = 0 := by
  simp only [macroLineFindings]
  split_ifs <;> rfl

theorem countP_macroScan_dist (lines : List String) :
    ∀ i, (macroScanAux i lines).countP (fun f => f.tag == "missing-dist-tag") = 0 :=
  countP_macroScan_zero _ countP_macroLine_dist lines

theorem countP_scriptlet_dist (lines : List String) :
    ∀ inS i, (scriptletScanAux inS i lines).countP
      (fun f => f.tag == "missing-dist-tag") = 0 :=
  countP_scriptlet_zero _ (fun _ => rfl) (fun _ => rfl) lines

theorem countP_changelog_dist (lines : List String) :
    ∀ inCh i, (changelogScanAux inCh i lines).countP
      (fun f => f.tag == "missing-dist-tag") = 0 :=
  countP_changelog_zero _ (fun _ => rfl) lines

/-! Claim theorems. -/

/-- The end-to-end text of claim C1. -/
def c1Text : String :=
  "Name: Foo\nVersion: 1\nRelease: 1\nSummary: test.\nLicense: GPLv2\n%description\ntest\n"

/-- C1: for the spec text
`"Name: Foo\nVersion: 1\nRelease: 1\nSummary: test.\nLicense: GPLv2\n%description\ntest\n"`,
the spec-file analysis yields Warning `uppercase-package-name` with
package `Foo`, Warning `missing-dist-tag`, Warning `summary-ends-with-dot`,
Warning `missing-url`, Warning `missing-source`, Warning
`missing-changelog`, and Warning `old-license-identifier` for GPLv2, and no
Finding of Error severity. -/
theorem claim_C1_end_to_end :
    (∃ f ∈ checkSpecText c1Text,
      f.severity = "W" ∧ f.tag = "uppercase-package-name" ∧ f.package = "Foo") ∧
    (∃ f ∈ checkSpecText c1Text, f.severity = "W" ∧ f.tag = "missing-dist-tag") ∧
    (∃ f ∈ checkSpecText c1Text, f.severity = "W" ∧ f.tag = "summary-ends-with-dot") ∧
    (∃ f ∈ checkSpecText c1Text, f.severity = "W" ∧ f.tag = "missing-url") ∧
    (∃ f ∈ checkSpecText c1Text, f.severity = "W" ∧ f.tag = "missing-source") ∧
    (∃ f ∈ checkSpecText c1Text, f.severity = "W" ∧ f.tag = "missing-changelog") ∧
    (∃ f ∈ checkSpecText c1Text,
      f.severity = "W" ∧ f.tag = "old-license-identifier" ∧
      strContains f.detail "GPLv2" = true) ∧
    (∀ f ∈ checkSpecText c1Text, f.severity ≠ "E") := by
  decide

/-- C2, counterexample: the claim says that when the FIRST `Release:` value
contains `%\x7b?dist\x7d` no `missing-dist-tag` Finding is ever produced.
In this text the first line is a `Release:` line whose value contains the
macro, yet one `missing-dist-tag` Finding is produced (from the second
`Release:` line): the source validates EVERY `Release:` line, not only the
first. -/
theorem claim_C2_counterexample :
    (pySplitlines "Release: 1%\x7b?dist\x7d\nRelease: 2\n").head? =
        some "Release: 1%\x7b?dist\x7d" ∧
    strContains (pyStrip (afterFirstColon (pyStrip "Release: 1%\x7b?dist\x7d")))
        "%\x7b?dist\x7d" = true ∧
    countTag (checkSpecText "Release: 1%\x7b?dist\x7d\nRelease: 2\n")
        "missing-dist-tag" = 1 := by
  decide

/-- C2, amended: EVERY `Release:` line is validated for the substring
`%\x7b?dist\x7d`; the number of `missing-dist-tag` Warnings produced by the
spec-file analysis equals the number of (stripped, case-insensitive)
`Release:` lines whose value lacks that substring — in particular it is
zero exactly when no such line exists, and a spec whose only `Release:`
line lacks the substring gets exactly one. -/
theorem claim_C2_amended (content : String) :
    countTag (checkSpecText content) "missing-dist-tag" =
      (pySplitlines content).countP releaseLacksDist := by
  simp only [checkSpecText, countTag, List.countP_append,
    countP_headerFlat_dist, countP_required_dist, countP_presence_dist,
    countP_license_dist, countP_macroScan_dist, countP_scriptlet_dist,
    countP_changelog_dist, Nat.add_zero]

/-- C9: the spec-file analysis is a total function of its input: a read or
decode failure produces exactly the single Error Finding of category
`general` and tag `spec-read-error` (with the exception text as detail) and
analysis stops there; on a successful read the result is `checkSpecText`
applied to the decoded text — a total Lean function, so no per-line anomaly
can escape as an exception. -/
theorem claim_C9_no_exceptions (fs : String → Except String String)
    (path : String) :
    (∀ e, fs path = .error e →
        check_spec_file fs path = [specReadErrorFinding e]) ∧
    (∀ c, fs path = .ok c → check_spec_file fs path = checkSpecText c) := by
  constructor
  · intro e he
    simp [check_spec_file, he]
  · intro c hc
    simp [check_spec_file, hc]

/-- Witness for C9 at a concrete failing filesystem and a concrete
succeeding one. -/
theorem claim_C9_witness :
    check_spec_file (fun _ => .error "read failure") "pkg.spec" =
        [specReadErrorFinding "read failure"] ∧
    check_spec_file (fun _ => .ok "Name: foo\n") "pkg.spec" =
        checkSpecText "Name: foo\n" :=
  ⟨(claim_C9_no_exceptions (fun _ => .error "read failure") "pkg.spec").1 _ rfl,
   (claim_C9_no_exceptions (fun _ => .ok "Name: foo\n") "pkg.spec").2 _ rfl⟩

/-- C5: for a path ending neither in `.spec` nor `.rpm` the dispatcher
peeks at the first line: if it contains `Name:` or a `%` character, the
result is exactly the spec-file analysis — independent of the linter
function and of `run_rpmlint`, so the linter is never invoked; otherwise,
or when the peek read fails, the result is exactly the single
`unknown-file-type` Error Finding. -/
theorem claim_C5_dispatch (fs : String → Except String String)
    (rpmCheck lint : String → List Finding) (path : String) (rl : Bool)
    (h1 : strEndsWith path ".spec" = false)
    (h2 : strEndsWith path ".rpm" = false) :
    (∀ e, fs path = .error e →
        check_package fs rpmCheck lint path rl = [unknownFileTypeFinding]) ∧
    (∀ c, fs path = .ok c →
        (strContains (readline1 c) "Name:" || strContains (readline1 c) "%") = true →
        check_package fs rpmCheck lint path rl = check_spec_file fs path) ∧
    (∀ c, fs path = .ok c →
        (strContains (readline1 c) "Name:" || strContains (readline1 c) "%") = false →
        check_package fs rpmCheck lint path rl = [unknownFileTypeFinding]) := by
  refine ⟨?_, ?_, ?_⟩
  · intro e he
    simp [check_package, h1, h2, he]
  · intro c hc hn
    simp [check_package, h1, h2, hc, hn]
  · intro c hc hn
    simp [check_package, h1, h2, hc, hn]

/-- Witness for C5: a `.xyz` path whose first line is `Name: foo` routes to
the spec analyzer with the linter result unused; a failing peek and a
peek with no spec marker both yield the single `unknown-file-type`
Finding. -/
theorem claim_C5_witness :
    check_package (fun _ => .ok "Name: foo\n") (fun _ => [])
        (fun _ => [unknownFileTypeFinding]) "file.xyz" true =
      check_spec_file (fun _ => .ok "Name: foo\n") "file.xyz" ∧
    check_package (fun _ => .error "denied") (fun _ => []) (fun _ => [])
        "file.xyz" true = [unknownFileTypeFinding] ∧
    check_package (fun _ => .ok "plain text\n") (fun _ => []) (fun _ => [])
        "file.xyz" true = [unknownFileTypeFinding] :=
  ⟨(claim_C5_dispatch _ _ _ "file.xyz" true (by decide) (by decide)).2.1 _ rfl
      (by decide),
   (claim_C5_dispatch _ _ _ "file.xyz" true (by decide) (by decide)).1 _ rfl,
   (claim_C5_dispatch _ _ _ "file.xyz" true (by decide) (by decide)).2.2 _ rfl
      (by decide)⟩

theorem scriptlet_filter_general (lines : List String) :
    ∀ inS i, (scriptletScanAux inS i lines).filter
        (fun f => f.tag == "dangerous-rm-in-scriptlet") =
      (dangerousLinesAux inS i lines).map dangerousRmFinding := by
  induction lines with
  | nil => intro inS i; rfl
  | cons l t ih =>
    intro inS i
    simp only [scriptletScanAux, dangerousLinesAux]
    by_cases hm : scriptletMarkers.contains (pyStrip l) = true
    · simp only [hm, if_true]
      exact ih true (i + 1)
    · simp only [hm, Bool.false_eq_true, if_false]
      rw [List.filter_append, ih]
      have pd : ∀ j : Nat,
          ((dangerousRmFinding j).tag == "dangerous-rm-in-scriptlet") = true :=
        fun _ => rfl
      have pe : ∀ j : Nat,
          ((exitFinding j).tag == "dangerous-rm-in-scriptlet") = false :=
        fun _ => rfl
      by_cases hin : (if strStartsWith (pyStrip l) "%" &&
          ¬ strStartsWith (pyStrip l) "%\x7b" then false else inS) = true
      · simp only [hin, eq_self_iff_true, if_true, Bool.true_and]
        split_ifs <;>
          simp [List.filter_append, List.filter_cons, List.filter_nil, pd, pe]
      · rw [Bool.not_eq_true] at hin
        simp only [hin, Bool.false_and, Bool.false_eq_true, if_false,
          List.nil_append]
        simp

/-- C6: an Error Finding with tag `dangerous-rm-in-scriptlet` is produced
exactly once per line containing `rm -rf /` or `rm -rf $RPM_BUILD_ROOT`
while the scriptlet state machine (entered on a stripped line equal to one
of `%pre` `%post` `%preun` `%postun` `%pretrans` `%posttrans`, the marker
line itself excluded from content checks, exited on a line starting with
`%` but not `%\x7b`) is inside a scriptlet section, and never otherwise:
the `dangerous-rm-in-scriptlet` Findings of the scan are exactly one
Finding per such line, carrying its 1-based line number, in order. -/
theorem claim_C6_scriptlet_rm (lines : List String) :
    (scriptletScanAux false 1 lines).filter
        (fun f => f.tag == "dangerous-rm-in-scriptlet") =
      (dangerousLinesAux false 1 lines).map dangerousRmFinding :=
  scriptlet_filter_general lines false 1

/-- C7, counterexample: the claim says every path under a `.build-id`
metadata directory is exempted from file-placement Findings, but a
`.build-id` path under `/usr/local/` still yields the
`file-in-usr-local` Error: in the source the `/usr/local/` check runs
before the `.build-id` `continue`, which only protects the `/tmp/`
check. -/
theorem claim_C7_counterexample :
    strContains "/usr/local/.build-id/a/b" "/.build-id/" = true ∧
    fileListFindings ["/usr/local/.build-id/a/b"] =
        [usrLocalFinding "/usr/local/.build-id/a/b"] ∧
    check_rpm_file (.ok "" "" 0) (.ok "/usr/local/.build-id/a/b" "" 0)
        (.ok "" "" 0) = [usrLocalFinding "/usr/local/.build-id/a/b"] := by
  decide

/-- C7, amended: in the file-list check the `.build-id` exemption applies
only to the `file-in-tmp` check: per listed path, a `/usr/local/` prefix
always yields the `file-in-usr-local` Error (even under `.build-id`),
and a `/tmp/` or `/var/tmp/` prefix yields the `file-in-tmp` Error unless
the path is `/usr/lib/.build-id` or contains `/.build-id/`; the file list
`/usr/lib/.build-id/ab/cdef` alone yields zero file-placement Findings. -/
theorem claim_C7_amended :
    (∀ fp, fileLineFindings fp =
      (if strStartsWith fp "/usr/local/" then [usrLocalFinding fp] else []) ++
      (if fp = "/usr/lib/.build-id" || strContains fp "/.build-id/" then []
       else if strStartsWith fp "/tmp/" || strStartsWith fp "/var/tmp/" then
         [tmpFinding fp]
       else [])) ∧
    (∀ files, fileListFindings files = files.flatMap fileLineFindings) ∧
    fileListFindings ["/usr/lib/.build-id/ab/cdef"] = [] := by
  refine ⟨?_, fun _ => rfl, by decide⟩
  intro fp
  simp only [fileLineFindings]
  split_ifs <;> simp

/-- C8: a linter-output line matched by neither the primary pattern nor —
attempted only for eligible lines (non-blank, not starting with `---`, a
space, or `rpmlint:`) — the fallback `<tag>: <detail>` pattern produces no
Finding and is silently dropped; a line matched only by the fallback
pattern produces a Finding with default severity `W` and an empty package
field. -/
theorem claim_C8_lint_fallback (line : String) :
    (primaryMatch line = none → fallbackEligible line = false →
        parseLintLine line = none) ∧
    (primaryMatch line = none → fallbackEligible line = true →
        fallbackMatch line = none → parseLintLine line = none) ∧
    (∀ tag det, primaryMatch line = none → fallbackEligible line = true →
        fallbackMatch line = some (tag, det) →
        parseLintLine line = some
          { category := "rpmlint", severity := "W", package := "",
            tag := tag, detail := det, recommendation := "" }) := by
  refine ⟨?_, ?_, ?_⟩
  · intro hp he
    simp [parseLintLine, hp, he]
  · intro hp he hf
    simp [parseLintLine, hp, he, hf]
  · intro tag det hp he hf
    simp [parseLintLine, hp, he, hf]

/-- Witness for C8: a noise-prefixed line is dropped; a line with no colon
is dropped (neither pattern matches); a `<tag>: <detail>` line without a
severity field is recorded as Warning with empty package. -/
theorem claim_C8_witness :
    parseLintLine "--- discarded line" = none ∧
    parseLintLine "noise without separators" = none ∧
    parseLintLine "badtag: some detail" = some
      { category := "rpmlint", severity := "W", package := "",
        tag := "badtag", detail := "some detail", recommendation := "" } :=
  ⟨(claim_C8_lint_fallback "--- discarded line").1 (by decide) (by decide),
   (claim_C8_lint_fallback "noise without separators").2.1 (by decide)
     (by decide) (by decide),
   (claim_C8_lint_fallback "badtag: some detail").2.2 "badtag" "some detail"
     (by decide) (by decide) (by decide)⟩

/-- C4, counterexample: the claim says a first-query failure always carries
tag `rpm-query-failed` or `rpm-not-installed`, and that a failure of the
second (file list) or third (dependency) query is silently skipped with the
remaining checks still running. In the source, (1) a first-query timeout
raises an exception handled by the generic handler, yielding tag
`rpm-error`; (2) an exception during the second query yields that same
Error Finding and aborts the dependency check — contrast with the fourth
conjunct, where the second query merely exits non-zero and the dependency
check does run. -/
theorem claim_C4_counterexample :
    check_rpm_file (.raisesErr "Command timed out") (.ok "" "" 0) (.ok "" "" 0) =
      [{ category := "general", severity := "E", package := "",
         tag := "rpm-error", detail := "Command timed out",
         recommendation := "" }] ∧
    ("rpm-error" : String) ≠ "rpm-query-failed" ∧
    ("rpm-error" : String) ≠ "rpm-not-installed" ∧
    check_rpm_file (.ok "" "" 0) (.raisesErr "timed out") (.ok "/opt/foo\n" "" 0) =
      [{ category := "general", severity := "E", package := "",
         tag := "rpm-error", detail := "timed out", recommendation := "" }] ∧
    check_rpm_file (.ok "" "" 0) (.ok "" "" 1) (.ok "/opt/foo\n" "" 0) =
      [{ category := "dependencies", severity := "I", package := "",
         tag := "file-dependency", detail := "File-based dependency: /opt/foo",
         recommendation := "Consider using package-based dependencies instead of file paths where possible." }] := by
  decide

/-- C4, amended: failure of the first query is fatal and short-circuits to
exactly one Error Finding — `rpm-not-installed` when the tool is missing,
`rpm-error` when it raises any other exception (including timeout),
`rpm-query-failed` when it exits non-zero; for the second and third
queries, only a NON-ZERO EXIT is silently skipped (the remaining checks
still run), while a raised exception (tool missing or timeout) appends one
Error Finding to the results accumulated so far and aborts the remaining
checks. -/
theorem claim_C4_amended :
    (∀ q2 q3, check_rpm_file .raisesFnf q2 q3 = rpmExcFindings [] .fnf) ∧
    (∀ m q2 q3, check_rpm_file (.raisesErr m) q2 q3 =
        rpmExcFindings [] (.other m)) ∧
    (∀ out err rc q2 q3, rc ≠ 0 →
        check_rpm_file (.ok out err rc) q2 q3 = [rpmQueryFailedFinding err]) ∧
    (∀ out err q3, check_rpm_file (.ok out err 0) .raisesFnf q3 =
        rpmExcFindings ((pySplitlines out).flatMap infoLineFindings) .fnf) ∧
    (∀ out err m q3, check_rpm_file (.ok out err 0) (.raisesErr m) q3 =
        rpmExcFindings ((pySplitlines out).flatMap infoLineFindings)
          (.other m)) ∧
    (∀ out err o2 e2 rc2 e,
        check_rpm_file (.ok out err 0) (.ok o2 e2 rc2) (.raisesErr e) =
          rpmExcFindings
            ((pySplitlines out).flatMap infoLineFindings ++
              (if rc2 = 0 then fileListFindings (pySplitlines o2) else []))
            (.other e)) ∧
    (∀ out err o2 e2 rc2 o3 e3 rc3,
        check_rpm_file (.ok out err 0) (.ok o2 e2 rc2) (.ok o3 e3 rc3) =
          (pySplitlines out).flatMap infoLineFindings ++
            (if rc2 = 0 then fileListFindings (pySplitlines o2) else []) ++
            (if rc3 = 0 then depListFindings (pySplitlines o3) else [])) := by
  refine ⟨fun _ _ => rfl, fun _ _ _ => rfl, ?_, fun _ _ _ => rfl,
    fun _ _ _ _ => rfl, fun _ _ _ _ _ _ => rfl, ?_⟩
  · intro out err rc q2 q3 h
    simp [check_rpm_file, qresRun, h]
  · intro out err o2 e2 rc2 o3 e3 rc3
    simp [check_rpm_file, qresRun, List.append_assoc]

/-- Witness for C4's amended claim at concrete inputs: a non-zero first
query short-circuits to the single `rpm-query-failed` Finding. -/
theorem claim_C4_witness :
    check_rpm_file (.ok "ignored" "boom" 1) .raisesFnf (.ok "/opt/x" "" 0) =
      [rpmQueryFailedFinding "boom"] :=
  claim_C4_amended.2.2.1 "ignored" "boom" 1 .raisesFnf (.ok "/opt/x" "" 0)
    (by decide)

theorem kwMatch_decomp {l r : List Char} (h : kwMatch l = some r) :
    ∃ k, (k = ['A', 'N', 'D'] ∨ k = ['O', 'R'] ∨ k = ['a', 'n', 'd'] ∨
          k = ['o', 'r']) ∧ l = k ++ r := by
  unfold kwMatch at h
  split at h
  · rename_i hp
    cases h
    obtain ⟨t, ht⟩ := List.isPrefixOf_iff_prefix.mp hp
    have hd : l.drop 3 = t := by
      rw [← ht]
      simp
    exact ⟨['A', 'N', 'D'], Or.inl rfl, by rw [hd, ht]⟩
  · split at h
    · rename_i hp
      cases h
      obtain ⟨t, ht⟩ := List.isPrefixOf_iff_prefix.mp hp
      have hd : l.drop 2 = t := by
        rw [← ht]
        simp
      exact ⟨['O', 'R'], Or.inr (Or.inl rfl), by rw [hd, ht]⟩
    · split at h
      · rename_i hp
        cases h
        obtain ⟨t, ht⟩ := List.isPrefixOf_iff_prefix.mp hp
        have hd : l.drop 3 = t := by
          rw [← ht]
          simp
        exact ⟨['a', 'n', 'd'], Or.inr (Or.inr (Or.inl rfl)), by rw [hd, ht]⟩
      · split at h
        · rename_i hp
          cases h
          obtain ⟨t, ht⟩ := List.isPrefixOf_iff_prefix.mp hp
          have hd : l.drop 2 = t := by
            rw [← ht]
            simp
          exact ⟨['o', 'r'], Or.inr (Or.inr (Or.inr rfl)), by rw [hd, ht]⟩
        · cases h

theorem sepMatch_decomp {l r : List Char} (h : sepMatch l = some r) :
    ∃ w1 k w2, l = w1 ++ k ++ w2 ++ r ∧ w1 ≠ [] ∧ w2 ≠ [] ∧
      (∀ c ∈ w1, isPySpace c = true) ∧ (∀ c ∈ w2, isPySpace c = true) ∧
      (k = ['A', 'N', 'D'] ∨ k = ['O', 'R'] ∨ k = ['a', 'n', 'd'] ∨
       k = ['o', 'r']) := by
  simp only [sepMatch] at h
  split at h
  · cases h
  · rename_i hla
    split at h
    · cases h
    · rename_i b hb
      split at h
      · cases h
      · rename_i hcb
        cases h
        obtain ⟨k, hk, hab⟩ := kwMatch_decomp hb
        refine ⟨l.takeWhile isPySpace, k, b.takeWhile isPySpace, ?_, ?_, ?_,
          fun c hc => List.mem_takeWhile_imp hc,
          fun c hc => List.mem_takeWhile_imp hc, hk⟩
        · conv_lhs => rw [← List.takeWhile_append_dropWhile isPySpace l]
          rw [hab]
          conv_lhs =>
            rw [← List.takeWhile_append_dropWhile isPySpace b]
          simp [List.append_assoc]
        · intro hw1
          have htd := List.takeWhile_append_dropWhile isPySpace l
          rw [hw1, List.nil_append] at htd
          exact hla (by rw [htd])
        · intro hw2
          have htd := List.takeWhile_append_dropWhile isPySpace b
          rw [hw2, List.nil_append] at htd
          exact hcb (by rw [htd])

theorem head?_dropWhile_not (p : Char → Bool) (l : List Char) :
    ∀ c, (l.dropWhile p).head? = some c → p c = false := by
  induction l with
  | nil =>
    intro c h
    simp [List.dropWhile] at h
  | cons a t ih =>
    intro c h
    rw [List.dropWhile_cons] at h
    split at h
    · exact ih c h
    · rename_i hpa
      simp at h
      subst h
      exact Bool.not_eq_true _ ▸ (by simpa using hpa)

theorem getLast?_dropWhile_ne_nil (p : Char → Bool) (l : List Char)
    (h : l.dropWhile p ≠ []) : (l.dropWhile p).getLast? = l.getLast? := by
  induction l with
  | nil => simp [List.dropWhile] at h
  | cons a t ih =>
    rw [List.dropWhile_cons]
    rw [List.dropWhile_cons] at h
    by_cases hpa : p a = true
    · rw [if_pos hpa] at h ⊢
      have ht : t ≠ [] := by
        intro he
        rw [he] at h
        simp [List.dropWhile] at h
      obtain ⟨b, t', rfl⟩ : ∃ b t', t = b :: t' := by
        cases t with
        | nil => exact absurd rfl ht
        | cons b t' => exact ⟨b, t', rfl⟩
      rw [ih h, List.getLast?_cons_cons]
    · rw [if_neg hpa]

theorem stripEnds_head (q : Char → Bool) (l : List Char) (c : Char)
    (h : (((l.dropWhile q).reverse.dropWhile q).reverse).head? = some c) :
    q c = false := by
  rw [List.head?_reverse] at h
  by_cases hnil : (l.dropWhile q).reverse.dropWhile q = []
  · rw [hnil] at h
    cases h
  · rw [getLast?_dropWhile_ne_nil q _ hnil, List.getLast?_reverse] at h
    exact head?_dropWhile_not q l c h

theorem stripEnds_last (q : Char → Bool) (l : List Char) (c : Char)
    (h : (((l.dropWhile q).reverse.dropWhile q).reverse).getLast? = some c) :
    q c = false := by
  rw [List.getLast?_reverse] at h
  exact head?_dropWhile_not q _ c h

theorem stripParens_ends (s : String) :
    (∀ c, (stripParens s).toList.head? = some c → c ≠ '(' ∧ c ≠ ')') ∧
    (∀ c, (stripParens s).toList.getLast? = some c → c ≠ '(' ∧ c ≠ ')') := by
  constructor
  · intro c h
    have hq := stripEnds_head (fun ch => ch = '(' || ch = ')') s.toList c h
    constructor <;> intro he <;> subst he <;> simp at hq
  · intro c h
    have hq := stripEnds_last (fun ch => ch = '(' || ch = ')') s.toList c h
    constructor <;> intro he <;> subst he <;> simp at hq

/-- C3, counterexample: validation as the claim describes it
(case-insensitive split, exactly one layer of parentheses stripped) differs
from the source on concrete expressions: `((MIT))` — the source strips ALL
parentheses, reaches the SPDX identifier `MIT` and reports nothing, while
one-layer stripping leaves `(MIT)` and reports it unrecognized; and
`MIT And GPLv2` — the source's split regex knows only the exact-case
keywords `AND OR and or`, so mixed-case `And` does not split and the whole
string is classified as one unknown identifier, while a case-insensitive
split classifies `GPLv2` as an old Fedora identifier. -/
theorem claim_C3_counterexample :
    licenseFindings "((MIT))" = [] ∧
    licenseFindingsSpec "((MIT))" = [unknownLicenseFinding "(MIT)"] ∧
    licenseFindings "MIT And GPLv2" =
        [unknownLicenseFinding "MIT And GPLv2"] ∧
    licenseFindingsSpec "MIT And GPLv2" = [oldLicenseFinding "GPLv2"] := by
  decide

/-- C3, amended: the expression is split exactly at separators consisting
of non-empty whitespace, one of the four EXACT-CASE keywords
`AND OR and or`, and non-empty whitespace; each part is trimmed and then
ALL leading and trailing parenthesis characters are stripped (the
classified token never starts nor ends with a parenthesis) before being
classified against the SPDX and legacy-Fedora identifier sets. -/
theorem claim_C3_amended :
    (∀ l r : List Char, sepMatch l = some r →
      ∃ w1 k w2, l = w1 ++ k ++ w2 ++ r ∧ w1 ≠ [] ∧ w2 ≠ [] ∧
        (∀ c ∈ w1, isPySpace c = true) ∧ (∀ c ∈ w2, isPySpace c = true) ∧
        (k = ['A', 'N', 'D'] ∨ k = ['O', 'R'] ∨ k = ['a', 'n', 'd'] ∨
         k = ['o', 'r'])) ∧
    (∀ s c, (stripParens s).toList.head? = some c → c ≠ '(' ∧ c ≠ ')') ∧
    (∀ s c, (stripParens s).toList.getLast? = some c → c ≠ '(' ∧ c ≠ ')') ∧
    (∀ v, v ≠ "" →
        licenseFindings v = (reSplitLicense v).flatMap classifyPart) := by
  refine ⟨fun l r h => sepMatch_decomp h, fun s => (stripParens_ends s).1,
    fun s => (stripParens_ends s).2, ?_⟩
  intro v hv
  simp [licenseFindings, hv]

/-- Witness for C3's amended claim: the separator of `" AND x"` decomposes
as claimed; the head and last characters of `stripParens "((MIT))"` are not
parentheses; and the validation pipeline for `GPLv2` factors through the
split and per-part classification. -/
theorem claim_C3_amended_witness :
    (∃ w1 k w2, " AND x".toList = w1 ++ k ++ w2 ++ "x".toList ∧ w1 ≠ [] ∧
      w2 ≠ [] ∧ (∀ c ∈ w1, isPySpace c = true) ∧
      (∀ c ∈ w2, isPySpace c = true) ∧
      (k = ['A', 'N', 'D'] ∨ k = ['O', 'R'] ∨ k = ['a', 'n', 'd'] ∨
       k = ['o', 'r'])) ∧
    ('M' ≠ '(' ∧ 'M' ≠ ')') ∧
    ('T' ≠ '(' ∧ 'T' ≠ ')') ∧
    licenseFindings "GPLv2" = (reSplitLicense "GPLv2").flatMap classifyPart :=
  ⟨claim_C3_amended.1 " AND x".toList "x".toList (by decide),
   claim_C3_amended.2.1 "((MIT))" 'M' (by decide),
   claim_C3_amended.2.2.1 "((MIT))" 'T' (by decide),
   claim_C3_amended.2.2.2 "GPLv2" (by decide)⟩

theorem countP_headerLine_cat (line : String) :
    (headerLineFindings line).countP (fun f => f.category == "licensing") = 0 := by
  simp only [headerLineFindings]
  split_ifs <;> rfl

theorem countP_headerLine_ml (line : String) :
    (headerLineFindings line).countP (fun f => f.tag == "missing-license") = 0 := by
  simp only [headerLineFindings]
  split_ifs <;> rfl

theorem countP_required_cat (st : HeaderState) :
    (requiredFindings st).countP (fun f => f.category == "licensing") = 0 := by
  obtain ⟨n, v, r, s, l, u, so, d, ch, b, cl, lv⟩ := st
  cases n <;> cases v <;> cases r <;> cases s <;> cases l <;> rfl

theorem countP_required_ml (st : HeaderState) (h : st.has_license = true) :
    (requiredFindings st).countP (fun f => f.tag == "missing-license") = 0 := by
  obtain ⟨n, v, r, s, l, u, so, d, ch, b, cl, lv⟩ := st
  cases l with
  | false => exact Bool.noConfusion h
  | true => cases n <;> cases v <;> cases r <;> cases s <;> rfl

theorem countP_presence_cat (st : HeaderState) :
    (presenceFindings st).countP (fun f => f.category == "licensing") = 0 := by
  obtain ⟨n, v, r, s, l, u, so, d, ch, b, cl, lv⟩ := st
  cases u <;> cases so <;> cases d <;> cases ch <;> cases b <;> cases cl <;> rfl

theorem countP_presence_ml (st : HeaderState) :
    (presenceFindings st).countP (fun f => f.tag == "missing-license") = 0 := by
  obtain ⟨n, v, r, s, l, u, so, d, ch, b, cl, lv⟩ := st
  cases u <;> cases so <;> cases d <;> cases ch <;> cases b <;> cases cl <;> rfl

theorem countP_macroLine_cat (i : Nat) (line : String) :
    (macroLineFindings i line).countP (fun f => f.category == "licensing") = 0 := by
  simp only [macroLineFindings]
  split_ifs <;> rfl

theorem countP_macroLine_ml (i : Nat) (line : String) :
    (macroLineFindings i line).countP (fun f => f.tag == "missing-license") = 0 := by
  simp only [macroLineFindings]
  split_ifs <;> rfl

theorem checkSpecText_countP_licensing (content : String)
    (hval : ((pySplitlines content).foldl headerFlagsStep {}).license_value = "") :
    (checkSpecText content).countP (fun f => f.category == "licensing") = 0 := by
  simp only [checkSpecText, List.countP_append]
  rw [hval]
  rw [countP_flatMap_zero _ _ _ countP_headerLine_cat,
    countP_required_cat, countP_presence_cat,
    show (licenseFindings "").countP (fun f => f.category == "licensing") = 0
      from rfl,
    countP_macroScan_zero _ countP_macroLine_cat _ 1,
    countP_scriptlet_zero _ (fun _ => rfl) (fun _ => rfl) _ false 1,
    countP_changelog_zero _ (fun _ => rfl) _ false 1]

theorem checkSpecText_countP_ml (content : String)
    (hlic : ((pySplitlines content).foldl headerFlagsStep {}).has_license = true) :
    (checkSpecText content).countP (fun f => f.tag == "missing-license") = 0 := by
  simp only [checkSpecText, List.countP_append]
  rw [countP_flatMap_zero _ _ _ countP_headerLine_ml,
    countP_required_ml _ hlic, countP_presence_ml,
    countP_license_zero _ (fun _ => rfl) (fun _ => rfl),
    countP_macroScan_zero _ countP_macroLine_ml _ 1,
    countP_scriptlet_zero _ (fun _ => rfl) (fun _ => rfl) _ false 1,
    countP_changelog_zero _ (fun _ => rfl) _ false 1]

/-- C10, counterexample: the claim quantifies over every spec text
CONTAINING a `License:` line with empty value. Here the first line is such
a line, yet a licensing-category Finding is produced, because `License:`
capture is last-occurrence-wins: the later `License: GPLv2` overwrites the
empty value and license validation runs. -/
theorem claim_C10_counterexample :
    (pySplitlines "License:\nLicense: GPLv2\n").head? = some "License:" ∧
    pyStrip (afterFirstColon (pyStrip "License:")) = "" ∧
    oldLicenseFinding "GPLv2" ∈ checkSpecText "License:\nLicense: GPLv2\n" ∧
    (oldLicenseFinding "GPLv2").category = "licensing" := by
  decide

/-- C10, amended: for every spec text containing a `License:` line, when
the LAST captured `License:` value (last occurrence wins) is empty — in
particular when every `License:` value is empty or whitespace-only — the
required-field check treats the license as present (no `missing-license`
Error) and license validation is skipped entirely, so no licensing-category
Finding is produced either. -/
theorem claim_C10_amended (content : String)
    (hlic : ((pySplitlines content).foldl headerFlagsStep {}).has_license = true)
    (hval : ((pySplitlines content).foldl headerFlagsStep {}).license_value = "") :
    ∀ f ∈ checkSpecText content,
      f.category ≠ "licensing" ∧ f.tag ≠ "missing-license" := by
  intro f hf
  have h1 := checkSpecText_countP_licensing content hval
  have h2 := checkSpecText_countP_ml content hlic
  rw [List.countP_eq_zero] at h1 h2
  have hc1 := h1 f hf
  have hc2 := h2 f hf
  simp only [beq_iff_eq] at hc1 hc2
  exact ⟨hc1, hc2⟩

/-- Witness for C10's amended claim: the text `"License: \n"` has a
`License:` line whose value is whitespace-only; the analysis produces no
licensing Finding and no `missing-license` Finding — verified here on its
first produced Finding (`missing-name`). -/
theorem claim_C10_witness :
    missingFieldFinding "name" ∈ checkSpecText "License: \n" ∧
    (missingFieldFinding "name").category ≠ "licensing" ∧
    (missingFieldFinding "name").tag ≠ "missing-license" := by
  have hmem : missingFieldFinding "name" ∈ checkSpecText "License: \n" := by
    decide
  obtain ⟨h1, h2⟩ := claim_C10_amended "License: \n" (by decide) (by decide)
    (missingFieldFinding "name") hmem
  exact ⟨hmem, h1, h2⟩

end RpmPolicy
